import Mathlib

/-!
Verification of the streaming transcription pipeline of `speaktranscribe-live`.

The definitions below are a shallow embedding of the TypeScript sources:
`src/utils/systemAudioCapture.ts` (duplicate suppression, silence detection,
speaker diarization, audio source acquisition), `src/utils/speechRecognitionUtils.ts`
(error-code mapping) and `src/hooks/useSpeechRecognition.tsx` (the recognition
controller's `handleResult`, `handleError`, `handleEnd` and `stopRecording`
handlers).

Modelling conventions:
* JavaScript floating-point values that may be NaN are modelled as `Option ℚ`
  (`none` = NaN); all arithmetic reached by the claims is exact on rationals.
* `Date.now()` timestamps are explicit `ℕ` millisecond parameters.
* Rational division and subtraction are routed through `Rat.divInt` so that
  concrete runs kernel-reduce (the library `Rat.mul` and friends are
  irreducible); `ratDiv_eq_div` and `ratSub_eq_sub` prove them equal to the
  ordinary field operations.  Threshold literals are written with `mkRat` for
  the same reason and bridged to `/`-literals in the theorems.
* JavaScript string primitives (`split`, `trim`, `toLowerCase`) are embedded
  as structural recursion on character lists, since the positional `String`
  functions of the library do not kernel-reduce.
-/

namespace SpeakTranscribe

/-- Division of rationals expressed with `Rat.divInt` (no library
irreducibles); proved equal to `a / b` in `ratDiv_eq_div`. -/
def ratDiv (a b : ℚ) : ℚ := Rat.divInt (a.num * b.den) (a.den * b.num)

/-- Subtraction of rationals expressed with `Rat.divInt`; proved equal to
`a - b` in `ratSub_eq_sub`. -/
def ratSub (a b : ℚ) : ℚ := Rat.divInt (a.num * b.den - b.num * a.den) (a.den * b.den)

/-- Embedding of JavaScript `str.split(c)` on a character list: split at every
character satisfying `p`, keeping empty pieces (on `""` it yields `[""]`). -/
def splitOnP (p : Char → Bool) : List Char → List (List Char)
  | [] => [[]]
  | c :: cs =>
    match splitOnP p cs with
    | [] => [[]]
    | w :: ws => if p c then [] :: w :: ws else (c :: w) :: ws

/-- Embedding of JavaScript `str.trim()`: drop whitespace from both ends. -/
def trimChars (cs : List Char) : List Char :=
  ((cs.dropWhile Char.isWhitespace).reverse.dropWhile Char.isWhitespace).reverse

/-! ## DuplicateSpeechDetector (`src/utils/systemAudioCapture.ts`)

The detector state is its `recentPhrases` history list (`maxPhraseHistory = 10`).
-/

/-- Word set `new Set(str.toLowerCase().split(' '))` used by
`DuplicateSpeechDetector.similarityScore`.  JavaScript `toLowerCase` is
embedded character-wise with `Char.toLower` (the inputs at issue are ASCII). -/
def wordSet (s : String) : Finset (List Char) :=
  (splitOnP (fun c => c = ' ') (s.data.map Char.toLower)).toFinset

/-- `DuplicateSpeechDetector.similarityScore`: Jaccard similarity
`intersection.size / union.size` of the two word sets.  The two sizes are
small exact integers in the source, so the quotient is an exact rational. -/
def similarityScore (str1 str2 : String) : ℚ :=
  Rat.divInt ((wordSet str1 ∩ wordSet str2).card : ℤ) ((wordSet str1 ∪ wordSet str2).card : ℤ)

/-- `DuplicateSpeechDetector.isDuplicate`: true when the similarity to some
retained phrase strictly exceeds `0.75` (`mkRat 3 4`). -/
def isDuplicate (phrase : String) (recentPhrases : List String) : Bool :=
  recentPhrases.any (fun recent => decide (similarityScore phrase recent > mkRat 3 4))

/-- `DuplicateSpeechDetector.addToHistory`: push the phrase, then `shift` the
oldest entry once the history length exceeds `maxPhraseHistory = 10`. -/
def addToHistory (recentPhrases : List String) (phrase : String) : List String :=
  let pushed := recentPhrases ++ [phrase]
  if pushed.length > 10 then pushed.tail else pushed

/-- `DuplicateSpeechDetector.breakIntoSentences`: split on `.` `!` `?`, trim
each piece, keep the pieces of positive length. -/
def breakIntoSentences (text : String) : List String :=
  ((splitOnP (fun c => c = '.' || c = '!' || c = '?') text.data).map
    (fun cs => String.mk (trimChars cs))).filter (fun s => s.length > 0)

/-- Result record of `DuplicateSpeechDetector.checkForDuplicates`. -/
structure DupCheckResult where
  hasDuplicates : Bool
  cleanedText : String
  deriving DecidableEq, Repr

/-- One iteration of the `phrases.forEach` loop inside `checkForDuplicates`;
the accumulator is (history, cleaned phrases so far, `hasDuplicates` flag). -/
def dupStep (acc : List String × List String × Bool) (phrase : String) :
    List String × List String × Bool :=
  if isDuplicate phrase acc.1 then (acc.1, acc.2.1, true)
  else (addToHistory acc.1 phrase, acc.2.1 ++ [phrase], acc.2.2)

/-- `DuplicateSpeechDetector.checkForDuplicates`: filter the sentence units of
`text` against the history; returns the result record together with the
updated `recentPhrases` history. -/
def checkForDuplicates (recentPhrases : List String) (text : String) :
    DupCheckResult × List String :=
  let phrases := breakIntoSentences text
  let out := phrases.foldl dupStep (recentPhrases, [], false)
  (⟨out.2.2, " ".intercalate out.2.1⟩, out.1)

/-! ## Audio source acquisition (`src/utils/systemAudioCapture.ts`) -/

/-- The `AudioSource` union type. -/
inductive AudioSource where
  | microphone
  | system
  | headphones
  | meeting
  | multimedia
  | voip
  deriving DecidableEq, Repr, Fintype

/-- `AudioCaptureOptions`: every field is optional (a TypeScript `Partial`
object literal omits absent fields). -/
structure AudioCaptureOptions where
  echoCancellation : Option Bool := none
  noiseSuppression : Option Bool := none
  autoGainControl : Option Bool := none
  sampleRate : Option ℕ := none
  channelCount : Option ℕ := none
  deriving DecidableEq, Repr

/-- Field-wise JavaScript object-spread: a field present in `b` overrides the
one from `a`. -/
def overrideOpt {α : Type} (a b : Option α) : Option α :=
  match b with
  | some v => some v
  | none => a

/-- `DEFAULT_OPTIONS`: 16 kHz mono with echo/noise/gain processing enabled. -/
def DEFAULT_OPTIONS : AudioCaptureOptions :=
  { echoCancellation := some true
    noiseSuppression := some true
    autoGainControl := some true
    sampleRate := some 16000
    channelCount := some 1 }

/-- `SOURCE_SPECIFIC_OPTIONS`: per-source partial overrides. -/
def SOURCE_SPECIFIC_OPTIONS : AudioSource → AudioCaptureOptions
  | .microphone =>
      { echoCancellation := some true, noiseSuppression := some true,
        autoGainControl := some true }
  | .headphones =>
      { echoCancellation := some true, noiseSuppression := some true,
        autoGainControl := some true }
  | .system =>
      { echoCancellation := some false, noiseSuppression := some false,
        autoGainControl := some false }
  | .meeting =>
      { echoCancellation := some false, noiseSuppression := some true,
        autoGainControl := some true }
  | .multimedia =>
      { echoCancellation := some false, noiseSuppression := some false,
        autoGainControl := some false }
  | .voip =>
      { echoCancellation := some false, noiseSuppression := some true,
        autoGainControl := some true }

/-- JavaScript `{...a, ...b}` on two options objects. -/
def spreadMerge (a b : AudioCaptureOptions) : AudioCaptureOptions :=
  { echoCancellation := overrideOpt a.echoCancellation b.echoCancellation
    noiseSuppression := overrideOpt a.noiseSuppression b.noiseSuppression
    autoGainControl := overrideOpt a.autoGainControl b.autoGainControl
    sampleRate := overrideOpt a.sampleRate b.sampleRate
    channelCount := overrideOpt a.channelCount b.channelCount }

/-- The `mergedOptions` computed by `getAudioStream`:
`{...DEFAULT_OPTIONS, ...SOURCE_SPECIFIC_OPTIONS[source], ...options}`, where
an omitted `options` argument defaults to `DEFAULT_OPTIONS` (the declared
parameter default). -/
def mergedOptionsFor (source : AudioSource) (options : Option AudioCaptureOptions) :
    AudioCaptureOptions :=
  spreadMerge (spreadMerge DEFAULT_OPTIONS (SOURCE_SPECIFIC_OPTIONS source))
    (options.getD DEFAULT_OPTIONS)

/-- An options object literal with every field absent (`{}`). -/
def emptyCaptureOptions : AudioCaptureOptions := {}

/-- Environment of one acquisition attempt: `userMedia` maps the merged
constraints to the audio tracks of the `getUserMedia` stream (`none` when the
call throws), and `displayMedia` is the audio-track list obtained from the
`getDisplayMedia` attempt (`none` when that call throws). -/
structure CaptureEnv where
  userMedia : AudioCaptureOptions → Option (List String)
  displayMedia : Option (List String)

/-- `getAudioStream`: merge the options, acquire the `getUserMedia` stream
first, and for the loopback-style sources try `getDisplayMedia`; when the
display capture throws or carries zero audio tracks, return the already
acquired direct-input stream (the source logs the fallback to the console
only).  A stream is identified with its audio-track list in this model. -/
def getAudioStream (env : CaptureEnv) (source : AudioSource)
    (options : Option AudioCaptureOptions) : Option (List String) :=
  let mergedOptions := mergedOptionsFor source options
  match env.userMedia mergedOptions with
  | none => none
  | some stream =>
    if source = .system ∨ source = .meeting ∨ source = .multimedia ∨ source = .voip then
      match env.displayMedia with
      | some displayAudioTracks =>
        if displayAudioTracks.length > 0 then some displayAudioTracks else some stream
      | none => some stream
    else some stream

/-- Environment whose display capture succeeds with one audio track. -/
def envDisplayCapture : CaptureEnv :=
  { userMedia := fun _ => some ["track"], displayMedia := some ["track"] }

/-- Environment whose display capture throws. -/
def envDisplayThrows : CaptureEnv :=
  { userMedia := fun _ => some ["track"], displayMedia := none }

/-- Environment whose display capture returns a stream with zero audio
tracks. -/
def envZeroTracks : CaptureEnv :=
  { userMedia := fun _ => some ["mic"], displayMedia := some [] }

/-! ## Recognition controller (`src/hooks/useSpeechRecognition.tsx`,
`src/utils/speechRecognitionUtils.ts`) -/

/-- The `errorMessages` table of `getSpeechErrorMessage`. -/
def speechErrorMessages : List (String × String) :=
  [("no-speech", "No speech was detected. Please try again."),
   ("aborted", "Speech recognition was aborted."),
   ("audio-capture", "No microphone was found or microphone access was denied."),
   ("network", "Network error occurred. Please check your connection."),
   ("not-allowed", "Microphone access was denied. Please allow microphone access in your browser settings."),
   ("service-not-allowed", "Speech recognition service is not allowed."),
   ("bad-grammar", "Error in speech grammar or language configuration."),
   ("language-not-supported", "The selected language is not supported.")]

/-- `getSpeechErrorMessage`: map a recognizer error code to its user-facing
message, with a generic fallback for unknown codes. -/
def getSpeechErrorMessage (errorCode : String) : String :=
  match speechErrorMessages.lookup errorCode with
  | some msg => msg
  | none => "An unknown error occurred."

/-- Controller state relevant to the error/end handlers: the `error`,
`isRecording` and `hasRecognitionEnded` React states, the
`intentionalStopRef` ref, and `restarts` counting the `recognition.start()`
calls issued by `handleEnd`. -/
structure RecState where
  error : Option String
  isRecording : Bool
  hasRecognitionEnded : Bool
  intentionalStop : Bool
  restarts : ℕ
  deriving DecidableEq, Repr

/-- The `handleError` event handler: always sets the mapped user-visible
message, marks an unexpected end when the stop was not intentional, and sets
`isRecording` to false. -/
def handleError (st : RecState) (errorCode : String) : RecState :=
  let st1 := { st with error := some (getSpeechErrorMessage errorCode) }
  let st2 :=
    if st1.intentionalStop = false then { st1 with hasRecognitionEnded := true } else st1
  { st2 with isRecording := false }

/-- The `handleEnd` event handler.  `wasRecording` is the `isRecording` value
captured by the handler closure when it was attached (the state before this
event, re-attached on every `isRecording` change), while `intentionalStopRef`
is a mutable ref read at its current value; the final condition guards the
`recognition.start()` auto-restart. -/
def handleEnd (st : RecState) : RecState :=
  let wasRecording := st.isRecording
  let st1 :=
    if st.intentionalStop = false then
      { st with hasRecognitionEnded := true, isRecording := false }
    else
      { st with intentionalStop := false }
  if wasRecording = true ∧ st1.intentionalStop = false then
    { st1 with restarts := st1.restarts + 1 }
  else st1

/-- Controller state at the start of a healthy recording session. -/
def initialRecordingState : RecState :=
  { error := none, isRecording := true, hasRecognitionEnded := false,
    intentionalStop := false, restarts := 0 }

/-! ## Transcript assembly (`handleResult` / `stopRecording` of
`src/hooks/useSpeechRecognition.tsx`) -/

/-- Session state seen by the transcript handlers: the `finalTranscriptRef`
and `interimResultsRef` refs, the `transcript` React state shown to
collaborators, and the duplicate detector history. -/
structure SessionState where
  finalTranscript : String
  interimResults : String
  displayed : String
  history : List String
  deriving DecidableEq, Repr

/-- The `for` loop of `handleResult` over the event results (pairs of
transcript text and `isFinal`): final results are filtered through
`checkForDuplicates` (whose history advances in every case) and accumulated
into `newFinalTranscript` with a trailing space; non-final results are
concatenated into `currentInterimTranscript`. -/
def processResults (history : List String) (results : List (String × Bool)) :
    String × String × List String :=
  results.foldl
    (fun acc r =>
      if r.2 then
        let checked := checkForDuplicates acc.2.2 r.1
        if checked.1.hasDuplicates = false ∧ checked.1.cleanedText ≠ "" then
          (acc.1 ++ checked.1.cleanedText ++ " ", acc.2.1, checked.2)
        else (acc.1, acc.2.1, checked.2)
      else (acc.1, acc.2.1 ++ r.1, acc.2.2))
    ("", "", history)

/-- The `handleResult` event handler: appends the accumulated new final text
(when non-empty) to `finalTranscriptRef`, overwrites `interimResultsRef`, and
sets the displayed transcript to their concatenation. -/
def handleResult (st : SessionState) (results : List (String × Bool)) : SessionState :=
  let out := processResults st.history results
  let newFinalTranscript := out.1
  let currentInterimTranscript := out.2.1
  let newFinal :=
    if newFinalTranscript ≠ "" then st.finalTranscript ++ newFinalTranscript
    else st.finalTranscript
  { finalTranscript := newFinal
    interimResults := currentInterimTranscript
    displayed := newFinal ++ currentInterimTranscript
    history := out.2.2 }

/-- The transcript part of `stopRecording`: when the interim buffer is
non-empty it is appended to the final transcript exactly once, cleared, and
the display is set to the final transcript. -/
def stopRecordingTranscript (st : SessionState) : SessionState :=
  if st.interimResults ≠ "" then
    { st with
      finalTranscript := st.finalTranscript ++ st.interimResults
      interimResults := ""
      displayed := st.finalTranscript ++ st.interimResults }
  else st

/-- Session state right after `startRecording` resets the refs and the
detector (the displayed transcript starts as the empty React state). -/
def initialSession : SessionState :=
  { finalTranscript := "", interimResults := "", displayed := "", history := [] }

/-- Run a whole sequence of recognition-result events. -/
def runSession (events : List (List (String × Bool))) : SessionState :=
  events.foldl handleResult initialSession

/-! ## SilenceDetector (`src/unnamed` revision of `systemAudioCapture.ts`,
cited by the silence-debounce claim)

A frame is represented by its decibel level `20 * log10(rms)`: the detector
observes a frame only through the comparison of that level with the
threshold, and the logarithm itself is transcendental.  `Date.now()` is the
explicit `now` parameter.  The JavaScript truthiness test
`if (!this.silenceStart)` treats both `null` and `0` as unset, hence the
`getD 0 = 0` guard. -/

structure SilenceDetector where
  silenceThreshold : ℚ := -50
  minSilenceDuration : ℕ := 1000
  silenceStart : Option ℕ := none
  isCurrentlySilent : Bool := false
  deriving DecidableEq, Repr

/-- `SilenceDetector.isSilent`: returns the reported flag and the updated
detector state. -/
def SilenceDetector.isSilent (st : SilenceDetector) (db : ℚ) (now : ℕ) :
    Bool × SilenceDetector :=
  if db < st.silenceThreshold then
    if st.silenceStart.getD 0 = 0 then
      (st.isCurrentlySilent, { st with silenceStart := some now })
    else if now - st.silenceStart.getD 0 > st.minSilenceDuration then
      (true, { st with isCurrentlySilent := true })
    else (st.isCurrentlySilent, st)
  else (false, { st with silenceStart := none, isCurrentlySilent := false })

/-- Detector as constructed with the default thresholds. -/
def initialSilenceDetector : SilenceDetector := {}

/-- Feed a list of (decibel level, timestamp) frames through the detector,
collecting the reported flags. -/
def runSilence (st : SilenceDetector) : List (ℚ × ℕ) → List Bool × SilenceDetector
  | [] => ([], st)
  | f :: fs =>
    let step := st.isSilent f.1 f.2
    let rest := runSilence step.2 fs
    (step.1 :: rest.1, rest.2)

/-! ## SpeakerDiarization (`src/utils/systemAudioCapture.ts`)

JavaScript numbers that may be NaN are `Option ℚ` (`none` = NaN); the helper
operations below reproduce the JavaScript semantics on the reachable values:
comparisons with NaN are false, arithmetic propagates NaN, `Math.min` and
`Math.max` return NaN when an argument is NaN, and NaN is falsy. -/

/-- A JavaScript number: `none` models NaN. -/
abbrev JsNum := Option ℚ

/-- JavaScript `<`: false when either side is NaN. -/
def jsLt (a b : JsNum) : Bool :=
  match a, b with
  | some x, some y => decide (x < y)
  | _, _ => false

/-- JavaScript truthiness of a number: NaN and 0 are falsy. -/
def jsTruthy (a : JsNum) : Bool :=
  match a with
  | some x => decide (x ≠ 0)
  | none => false

/-- JavaScript division.  In the diarizer a zero denominator occurs only
together with a zero numerator (`0 / 0 = NaN`), so mapping division by zero
to `none` is faithful on every reachable input. -/
def jsDiv (a b : JsNum) : JsNum :=
  match a, b with
  | some x, some y => if y = 0 then none else some (ratDiv x y)
  | _, _ => none

/-- JavaScript subtraction (NaN-propagating). -/
def jsSub (a b : JsNum) : JsNum :=
  match a, b with
  | some x, some y => some (ratSub x y)
  | _, _ => none

/-- JavaScript `Math.min` (returns NaN when an argument is NaN). -/
def jsMin (a b : JsNum) : JsNum :=
  match a, b with
  | some x, some y => some (min x y)
  | _, _ => none

/-- JavaScript `Math.max` (returns NaN when an argument is NaN). -/
def jsMax (a b : JsNum) : JsNum :=
  match a, b with
  | some x, some y => some (max x y)
  | _, _ => none

/-- `SpeakerDiarization` instance state. -/
structure SpeakerDiarization where
  energyThreshold : ℚ := mkRat 1 50
  speakerChangeThreshold : ℚ := mkRat 3 10
  prevEnergy : JsNum := some 0
  speakerId : ℕ := 1
  lastSpeakerId : ℕ := 1
  stabilityCounter : ℕ := 0

/-- Result of `detectSpeakerChange`. -/
structure SpeakerResult where
  speakerId : ℕ
  confidence : JsNum

/-- `SpeakerDiarization.detectSpeakerChange`, parameterized by the frame
energy (the source computes `energy = sqrt(sum of squares / length)`; the
square root is transcendental, so the step function receives that value —
NaN included — as its `energy` argument; see `calculateEnergySq`). -/
def SpeakerDiarization.detectSpeakerChange (st : SpeakerDiarization) (energy : JsNum) :
    SpeakerResult × SpeakerDiarization :=
  if jsLt energy (some st.energyThreshold) then
    (⟨st.lastSpeakerId, some (mkRat 1 2)⟩, st)
  else
    let denom := if jsTruthy st.prevEnergy then st.prevEnergy else energy
    let ratioOfEnergies := jsDiv energy denom
    let normalizedRatio := jsMin ratioOfEnergies (jsDiv (some 1) ratioOfEnergies)
    let st1 :=
      if jsLt normalizedRatio (some st.speakerChangeThreshold) then
        if st.stabilityCounter + 1 > 3 then
          { st with
            speakerId := if st.speakerId = 1 then 2 else 1
            lastSpeakerId := if st.speakerId = 1 then 2 else 1
            stabilityCounter := 0 }
        else { st with stabilityCounter := st.stabilityCounter + 1 }
      else { st with stabilityCounter := 0 }
    let st2 := { st1 with prevEnergy := energy }
    let confidence := jsMin (some 1) (jsMax (some (mkRat 1 2)) (jsSub (some 1) normalizedRatio))
    (⟨st2.lastSpeakerId, confidence⟩, st2)

/-- Radicand of `SpeakerDiarization.calculateEnergy`: the source divides the
sample-square sum by `audioData.length` with no zero-length guard and takes
`Math.sqrt`; the JavaScript energy is NaN exactly when this radicand is NaN
(for the empty frame: `0 / 0`), and `Math.sqrt` preserves NaN. -/
def calculateEnergySq (audioData : List ℚ) : JsNum :=
  jsDiv (some ((audioData.map (fun x => x * x)).sum)) (some (audioData.length : ℚ))

/-- Diarizer as constructed at session start. -/
def initSpeakerDiarization : SpeakerDiarization := {}

/-- Drive `detectSpeakerChange` over a list of frame energies, collecting the
reported speaker ids. -/
def runDiarization (st : SpeakerDiarization) : List JsNum → List ℕ × SpeakerDiarization
  | [] => ([], st)
  | e :: es =>
    let step := st.detectSpeakerChange e
    let rest := runDiarization step.2 es
    (step.1.speakerId :: rest.1, rest.2)

/-- Diarizer state reached after the first frame of energy `q` of a session:
only `prevEnergy` differs from the fresh state. -/
def steadyState (q : ℚ) : SpeakerDiarization :=
  { initSpeakerDiarization with prevEnergy := some q }

/-! ## Bridging lemmas -/

theorem ratDiv_eq_div (a b : ℚ) : ratDiv a b = a / b := (Rat.div_def' a b).symm

theorem ratSub_eq_sub (a b : ℚ) : ratSub a b = a - b := by
  rw [ratSub]
  conv_rhs => rw [← Rat.num_divInt_den a, ← Rat.num_divInt_den b]
  rw [Rat.divInt_sub_divInt _ _ (by exact_mod_cast a.den_ne_zero)
    (by exact_mod_cast b.den_ne_zero)]

theorem mkRat_eq_div (a : ℤ) (b : ℕ) : (mkRat a b : ℚ) = (a : ℚ) / (b : ℚ) := by
  rw [Rat.mkRat_eq_divInt, Rat.divInt_eq_div]
  norm_num

theorem threeQuarters_eq : (mkRat 3 4 : ℚ) = 3 / 4 := by
  rw [mkRat_eq_div]; norm_num

/-! ## Word splitting and similarity lemmas -/

theorem splitOnP_ne_nil (p : Char → Bool) (cs : List Char) : splitOnP p cs ≠ [] := by
  cases cs with
  | nil => simp [splitOnP]
  | cons c cs =>
    simp only [splitOnP]
    cases splitOnP p cs with
    | nil => simp
    | cons w ws => by_cases h : p c <;> simp [h]

theorem wordSet_nonempty (s : String) : (wordSet s).Nonempty := by
  have h := splitOnP_ne_nil (fun c => c = ' ') (s.data.map Char.toLower)
  cases hq : splitOnP (fun c => c = ' ') (s.data.map Char.toLower) with
  | nil => exact absurd hq h
  | cons w ws => exact ⟨w, by simp [wordSet, hq]⟩

theorem similarityScore_eq_div (str1 str2 : String) :
    similarityScore str1 str2 =
      ((wordSet str1 ∩ wordSet str2).card : ℚ) / ((wordSet str1 ∪ wordSet str2).card : ℚ) := by
  rw [similarityScore, Rat.divInt_eq_div]
  simp only [Int.cast_natCast]

theorem similarityScore_self (s : String) : similarityScore s s = 1 := by
  rw [similarityScore_eq_div]
  simp only [Finset.inter_self, Finset.union_self]
  rw [div_self]
  exact_mod_cast Finset.card_ne_zero_of_mem (wordSet_nonempty s).choose_spec

theorem isDuplicate_of_mem {p : String} {h : List String} (hp : p ∈ h) :
    isDuplicate p h = true := by
  simp only [isDuplicate, List.any_eq_true]
  refine ⟨p, hp, ?_⟩
  simp only [similarityScore_self, gt_iff_lt, decide_eq_true_eq, threeQuarters_eq]
  norm_num

theorem isDuplicate_mono {p : String} {h h' : List String}
    (hsub : ∀ x ∈ h, x ∈ h') (hdup : isDuplicate p h = true) :
    isDuplicate p h' = true := by
  simp only [isDuplicate, List.any_eq_true] at *
  obtain ⟨r, hr, hs⟩ := hdup
  exact ⟨r, hsub r hr, hs⟩

theorem addToHistory_small {h : List String} (hlen : h.length ≤ 9) (p : String) :
    addToHistory h p = h ++ [p] := by
  simp only [addToHistory, List.length_append, List.length_cons, List.length_nil]
  rw [if_neg]
  omega

/-! ## Duplicate-suppression run lemmas -/

theorem dupRun_spec (us : List String) :
    ∀ (hist cleaned : List String) (flag : Bool),
      hist.length + us.length ≤ 10 →
      (∀ x ∈ hist, x ∈ (us.foldl dupStep (hist, cleaned, flag)).1) ∧
      (∀ u ∈ us, isDuplicate u (us.foldl dupStep (hist, cleaned, flag)).1 = true) := by
  induction us with
  | nil =>
    intro hist cleaned flag _
    exact ⟨fun x hx => hx, by simp⟩
  | cons u us ih =>
    intro hist cleaned flag hlen
    simp only [List.length_cons] at hlen
    simp only [List.foldl_cons]
    by_cases hd : isDuplicate u hist
    · have hstep : dupStep (hist, cleaned, flag) u = (hist, cleaned, true) := by
        simp [dupStep, hd]
      rw [hstep]
      obtain ⟨hsub, hall⟩ := ih hist cleaned true (by omega)
      refine ⟨hsub, fun v hv => ?_⟩
      rcases List.mem_cons.mp hv with rfl | hv
      · exact isDuplicate_mono hsub hd
      · exact hall v hv
    · have hsmall : hist.length ≤ 9 := by omega
      have hstep : dupStep (hist, cleaned, flag) u =
          (hist ++ [u], cleaned ++ [u], flag) := by
        simp [dupStep, hd, addToHistory_small hsmall]
      rw [hstep]
      obtain ⟨hsub, hall⟩ := ih (hist ++ [u]) (cleaned ++ [u]) flag (by simp; omega)
      refine ⟨fun x hx => hsub x (by simp [hx]), fun v hv => ?_⟩
      rcases List.mem_cons.mp hv with rfl | hv
      · exact isDuplicate_mono hsub (isDuplicate_of_mem (by simp))
      · exact hall v hv

theorem dupRun_allDup (us : List String) :
    ∀ (hist cleaned : List String) (flag : Bool),
      (∀ u ∈ us, isDuplicate u hist = true) →
      us.foldl dupStep (hist, cleaned, flag) = (hist, cleaned, flag || !us.isEmpty) := by
  induction us with
  | nil => intro hist cleaned flag _; simp
  | cons u us ih =>
    intro hist cleaned flag hall
    simp only [List.foldl_cons]
    have hd : isDuplicate u hist = true := hall u (by simp)
    have hstep : dupStep (hist, cleaned, flag) u = (hist, cleaned, true) := by
      simp [dupStep, hd]
    rw [hstep, ih hist cleaned true (fun v hv => hall v (by simp [hv]))]
    simp

/-! ## Claim C3: duplicate-classification threshold -/

/-- C3, counterexample.  The claim states that a word-set Jaccard similarity
of exactly 0.75 (three shared words out of a four-word union) is classified
as a duplicate; in the code `isDuplicate` requires the similarity to strictly
exceed 0.75, so this pair is retained. -/
theorem sentence_pair_at_jaccard_three_quarters_not_duplicate :
    similarityScore "a b c" "a b c d" = 3 / 4 ∧
    isDuplicate "a b c" ["a b c d"] = false := by
  constructor
  · rw [← threeQuarters_eq]; decide
  · decide

/-- C3, amended.  A candidate unit is classified as a duplicate exactly when
its word-set Jaccard similarity strictly exceeds 0.75 against some retained
history unit (similarity exactly 0.75 is retained); the spec example with
Jaccard 0.8 is flagged. -/
theorem duplicate_iff_jaccard_strictly_above_three_quarters :
    (∀ (phrase : String) (recentPhrases : List String),
        isDuplicate phrase recentPhrases = true ↔
          ∃ recent ∈ recentPhrases, similarityScore phrase recent > 3 / 4) ∧
    isDuplicate "the patient reports mild pain" ["the patient reports pain"] = true := by
  constructor
  · intro phrase recentPhrases
    simp only [isDuplicate, List.any_eq_true, decide_eq_true_eq, threeQuarters_eq]
  · decide

/-! ## Claim C4: filtering the same text twice -/

/-- C4, counterexample.  Filtering the same text twice in immediate
succession is claimed to yield empty cleaned output the second time; with
eleven pairwise-dissimilar sentence units the FIFO history (capacity 10)
evicts each unit before the second pass reaches it, so the second call
returns the full text with no duplicate flagged. -/
theorem second_pass_of_eleven_units_is_not_suppressed :
    (checkForDuplicates (checkForDuplicates [] "a. b. c. d. e. f. g. h. i. j. k").2
        "a. b. c. d. e. f. g. h. i. j. k").1 =
      ⟨false, "a b c d e f g h i j k"⟩ := by
  decide

/-- C4, amended.  When the detector history starts empty and the text has at
most `maxPhraseHistory = 10` sentence units, the second of two consecutive
`checkForDuplicates` calls on the same text yields empty cleaned text, leaves
the history unchanged, and flags duplicates whenever the text has at least
one unit. -/
theorem second_pass_suppressed_up_to_history_capacity (text : String)
    (hlen : (breakIntoSentences text).length ≤ 10) :
    (checkForDuplicates (checkForDuplicates [] text).2 text).1.cleanedText = "" ∧
    (checkForDuplicates (checkForDuplicates [] text).2 text).2 =
      (checkForDuplicates [] text).2 ∧
    (breakIntoSentences text ≠ [] →
      (checkForDuplicates (checkForDuplicates [] text).2 text).1.hasDuplicates = true) := by
  have hspec := dupRun_spec (breakIntoSentences text) [] [] false (by simpa using hlen)
  have hfirst :
      (checkForDuplicates [] text).2 =
        ((breakIntoSentences text).foldl dupStep ([], [], false)).1 := rfl
  have hall : ∀ u ∈ breakIntoSentences text,
      isDuplicate u (checkForDuplicates [] text).2 = true := by
    rw [hfirst]; exact hspec.2
  have hrun := dupRun_allDup (breakIntoSentences text)
    (checkForDuplicates [] text).2 [] false hall
  refine ⟨?_, ?_, ?_⟩
  · show (" ".intercalate
      ((breakIntoSentences text).foldl dupStep ((checkForDuplicates [] text).2, [], false)).2.1) = ""
    rw [hrun]
    rfl
  · show ((breakIntoSentences text).foldl dupStep ((checkForDuplicates [] text).2, [], false)).1 =
      (checkForDuplicates [] text).2
    rw [hrun]
  · intro hne
    show ((breakIntoSentences text).foldl dupStep ((checkForDuplicates [] text).2, [], false)).2.2 =
      true
    rw [hrun]
    simpa using hne

/-- C4, witness for the amended theorem at a two-unit text. -/
theorem second_pass_suppressed_witness :
    (breakIntoSentences "hello there. general kenobi").length ≤ 10 ∧
    breakIntoSentences "hello there. general kenobi" ≠ [] ∧
    (checkForDuplicates (checkForDuplicates [] "hello there. general kenobi").2
        "hello there. general kenobi").1.cleanedText = "" ∧
    (checkForDuplicates (checkForDuplicates [] "hello there. general kenobi").2
        "hello there. general kenobi").1.hasDuplicates = true :=
  ⟨by decide, by decide,
    (second_pass_suppressed_up_to_history_capacity _ (by decide)).1,
    (second_pass_suppressed_up_to_history_capacity _ (by decide)).2.2 (by decide)⟩

/-! ## Claim C1: displayed transcript invariant -/

theorem handleResult_displayed (st : SessionState) (results : List (String × Bool)) :
    (handleResult st results).displayed =
      (handleResult st results).finalTranscript ++ (handleResult st results).interimResults := rfl

theorem runSession_displayed (events : List (List (String × Bool))) :
    (runSession events).displayed =
      (runSession events).finalTranscript ++ (runSession events).interimResults := by
  have hgen : ∀ (es : List (List (String × Bool))) (st : SessionState),
      st.displayed = st.finalTranscript ++ st.interimResults →
      (es.foldl handleResult st).displayed =
        (es.foldl handleResult st).finalTranscript ++
          (es.foldl handleResult st).interimResults := by
    intro es
    induction es with
    | nil => intro st h; exact h
    | cons e es ih => intro st _; exact ih (handleResult st e) (handleResult_displayed st e)
  exact hgen events initialSession rfl

/-- C1.  After any sequence of recognition-result events, the displayed
transcript equals the accumulated final transcript concatenated with the
current interim text; the final stop appends a non-empty interim buffer to
the final transcript exactly once, clears it, and displays the final
transcript (an empty interim buffer leaves everything unchanged). -/
theorem transcript_display_invariant (events : List (List (String × Bool))) :
    (runSession events).displayed =
      (runSession events).finalTranscript ++ (runSession events).interimResults ∧
    (stopRecordingTranscript (runSession events)).finalTranscript =
      (runSession events).finalTranscript ++ (runSession events).interimResults ∧
    (stopRecordingTranscript (runSession events)).interimResults = "" ∧
    (stopRecordingTranscript (runSession events)).displayed =
      (stopRecordingTranscript (runSession events)).finalTranscript := by
  have h1 := runSession_displayed events
  by_cases hi : (runSession events).interimResults = ""
  · have hstop : stopRecordingTranscript (runSession events) = runSession events := by
      simp [stopRecordingTranscript, hi]
    rw [hstop]
    refine ⟨h1, ?_, hi, ?_⟩
    · rw [hi]; simp
    · rw [h1, hi]; simp
  · have hstop : stopRecordingTranscript (runSession events) =
        { runSession events with
          finalTranscript :=
            (runSession events).finalTranscript ++ (runSession events).interimResults
          interimResults := ""
          displayed :=
            (runSession events).finalTranscript ++ (runSession events).interimResults } := by
      simp [stopRecordingTranscript, hi]
    rw [hstop]
    exact ⟨h1, rfl, rfl, rfl⟩

/-! ## Claim C5: capture-constraint merge order -/

/-- C5, counterexample.  The claim states that every loopback-style source
acquired with no caller-supplied overrides gets echo cancellation and auto
gain control disabled.  In the code, the `meeting` and `voip` per-source
entries keep `autoGainControl: true`, and an omitted caller argument defaults
to `DEFAULT_OPTIONS`, whose spread re-enables everything even for `system`. -/
theorem loopback_kinds_keep_gain_control_enabled :
    (mergedOptionsFor .meeting (some emptyCaptureOptions)).autoGainControl = some true ∧
    (mergedOptionsFor .voip (some emptyCaptureOptions)).autoGainControl = some true ∧
    (mergedOptionsFor .system none).echoCancellation = some true ∧
    (mergedOptionsFor .system none).autoGainControl = some true := by
  decide

/-- C5, amended.  Caller-supplied fields have highest precedence when a
caller options object is passed; an omitted options argument defaults to the
built-in defaults, which then override the per-source entries entirely; with
an explicitly empty caller object, echo cancellation is disabled for all four
loopback kinds, while auto gain control is disabled only for `system` and
`multimedia` and stays enabled for `meeting` and `voip`. -/
theorem merge_order_precedence_and_loopback_overrides :
    (∀ (source : AudioSource) (options : AudioCaptureOptions) (b : Bool),
        options.autoGainControl = some b →
        (mergedOptionsFor source (some options)).autoGainControl = some b) ∧
    (∀ (source : AudioSource) (options : AudioCaptureOptions) (b : Bool),
        options.echoCancellation = some b →
        (mergedOptionsFor source (some options)).echoCancellation = some b) ∧
    (∀ source : AudioSource, mergedOptionsFor source none = DEFAULT_OPTIONS) ∧
    ((mergedOptionsFor .system (some emptyCaptureOptions)).echoCancellation = some false ∧
      (mergedOptionsFor .meeting (some emptyCaptureOptions)).echoCancellation = some false ∧
      (mergedOptionsFor .multimedia (some emptyCaptureOptions)).echoCancellation = some false ∧
      (mergedOptionsFor .voip (some emptyCaptureOptions)).echoCancellation = some false) ∧
    ((mergedOptionsFor .system (some emptyCaptureOptions)).autoGainControl = some false ∧
      (mergedOptionsFor .multimedia (some emptyCaptureOptions)).autoGainControl = some false ∧
      (mergedOptionsFor .meeting (some emptyCaptureOptions)).autoGainControl = some true ∧
      (mergedOptionsFor .voip (some emptyCaptureOptions)).autoGainControl = some true) := by
  refine ⟨?_, ?_, by decide, by decide, by decide⟩
  · intro source options b h
    simp [mergedOptionsFor, spreadMerge, overrideOpt, h]
  · intro source options b h
    simp [mergedOptionsFor, spreadMerge, overrideOpt, h]

/-- C5, witness: a caller override of auto gain control wins for `meeting`. -/
theorem merge_order_precedence_witness :
    ({ emptyCaptureOptions with autoGainControl := some false } :
        AudioCaptureOptions).autoGainControl = some false ∧
    (mergedOptionsFor .meeting
        (some { emptyCaptureOptions with autoGainControl := some false })).autoGainControl =
      some false :=
  ⟨rfl, merge_order_precedence_and_loopback_overrides.1 .meeting _ false rfl⟩

/-! ## Claim C6: loopback fallback to direct input -/

/-- C6, counterexample.  The claim states the caller is informed which path
(display capture or direct-input fallback) was used; the function only
returns a stream, and an environment where display capture succeeds and one
where it throws produce identical return values, so no path information
reaches the caller. -/
theorem acquisition_path_not_reported_to_caller :
    getAudioStream envDisplayCapture .meeting none = some ["track"] ∧
    getAudioStream envDisplayThrows .meeting none = some ["track"] ∧
    envDisplayCapture.displayMedia ≠ envDisplayThrows.displayMedia :=
  ⟨rfl, rfl, by decide⟩

/-- C6, amended.  For every loopback-style source kind, when the display
capture throws or returns zero audio tracks, the acquisition returns exactly
the direct-input stream obtained with the same merged constraints (succeeding
whenever direct input succeeds); the path taken is only logged, not returned
to the caller. -/
theorem loopback_fallback_uses_same_merged_constraints (env : CaptureEnv)
    (source : AudioSource) (options : Option AudioCaptureOptions)
    (hloop : source = .system ∨ source = .meeting ∨ source = .multimedia ∨ source = .voip)
    (hdisplay : env.displayMedia = none ∨ env.displayMedia = some []) :
    getAudioStream env source options = env.userMedia (mergedOptionsFor source options) := by
  cases hum : env.userMedia (mergedOptionsFor source options) with
  | none => simp [getAudioStream, hum]
  | some stream =>
    simp only [getAudioStream]
    rw [hum]
    simp only
    rw [if_pos hloop]
    rcases hdisplay with h | h <;> simp [h]

/-- C6, witness: the zero-audio-track display capture falls back to the
direct-input stream for `system`. -/
theorem loopback_fallback_witness :
    getAudioStream envZeroTracks .system none =
      envZeroTracks.userMedia (mergedOptionsFor .system none) :=
  loopback_fallback_uses_same_merged_constraints envZeroTracks .system none
    (Or.inl rfl) (Or.inr rfl)

/-! ## Claim C7: transient errors and user-visible messages -/

/-- C7, counterexample.  The claim states that a no-speech error is silently
ignored, sets no user-visible error and does not stop recording; the code's
`handleError` sets the mapped message and `setIsRecording(false)` for every
error code, no-speech included. -/
theorem no_speech_error_is_surfaced_and_stops_recording :
    (handleError initialRecordingState "no-speech").error =
      some "No speech was detected. Please try again." ∧
    (handleError initialRecordingState "no-speech").isRecording = false ∧
    (handleError initialRecordingState "no-speech").hasRecognitionEnded = true := by
  decide

/-- C7, amended.  Every recognizer error event, including no-speech, sets the
user-visible message mapped from the error code and stops recording;
`handleError` itself performs no restart (the restart counter is unchanged);
no-speech maps to its dedicated message rather than being ignored. -/
theorem every_error_sets_message_and_stops_recording :
    (∀ (st : RecState) (errorCode : String),
        (handleError st errorCode).error = some (getSpeechErrorMessage errorCode) ∧
        (handleError st errorCode).isRecording = false ∧
        (handleError st errorCode).restarts = st.restarts) ∧
    getSpeechErrorMessage "no-speech" = "No speech was detected. Please try again." ∧
    getSpeechErrorMessage "unheard-of-code" = "An unknown error occurred." := by
  refine ⟨?_, by decide, by decide⟩
  intro st errorCode
  by_cases h : st.intentionalStop = false <;>
    simp [handleError, h]

/-! ## Claim C2: restart exhaustion after repeated unintentional ends -/

/-- C2, counterexample.  The claim states that five consecutive unintentional
recognizer end events with no intervening result drive the controller into a
terminal `Failed` state with a user-visible error; the code counts no
attempts: after five such events the error is still unset, recording is
simply off, and exactly one automatic restart was ever issued. -/
theorem five_unintentional_ends_surface_no_error :
    (handleEnd^[5] initialRecordingState).error = none ∧
    (handleEnd^[5] initialRecordingState).restarts = 1 ∧
    (handleEnd^[5] initialRecordingState).isRecording = false ∧
    (handleEnd^[5] initialRecordingState).hasRecognitionEnded = true := by
  decide

/-- C2, amended.  The controller has no attempt bound and no `Failed` state:
the first unintentional end event marks recognition ended, turns recording
off and issues a single automatic restart (the handler closure still sees the
recording flag); every further unintentional end is absorbed with no restart,
and no user-visible error is ever produced by end handling. -/
theorem unintentional_ends_never_fail_or_surface_error (n : ℕ) (hn : 1 ≤ n) :
    handleEnd^[n] initialRecordingState =
      { error := none, isRecording := false, hasRecognitionEnded := true,
        intentionalStop := false, restarts := 1 } := by
  obtain ⟨k, rfl⟩ : ∃ k, n = k + 1 := ⟨n - 1, by omega⟩
  clear hn
  induction k with
  | zero => decide
  | succ k ih =>
    rw [Function.iterate_succ_apply', ih]
    decide

/-- C2, witness for the amended theorem at five end events. -/
theorem unintentional_ends_witness :
    1 ≤ 5 ∧
    handleEnd^[5] initialRecordingState =
      { error := none, isRecording := false, hasRecognitionEnded := true,
        intentionalStop := false, restarts := 1 } :=
  ⟨by omega, unintentional_ends_never_fail_or_surface_error 5 (by omega)⟩

/-! ## Claim C8: silence debounce -/

/-- C8, counterexample.  The claim states silence is reported once the
elapsed time since the timer started is greater than or equal to the minimum
duration; the code requires the elapsed time to strictly exceed it, so at an
elapsed time of exactly `minSilenceDuration` (1000 ms here) no silence is
reported even though both frames are below the threshold. -/
theorem silence_not_reported_at_exact_minimum_duration :
    (1001 : ℕ) - 1 = initialSilenceDetector.minSilenceDuration ∧
    ((-60 : ℚ) < initialSilenceDetector.silenceThreshold) ∧
    (runSilence initialSilenceDetector [(-60, 1), (-60, 1001)]).1 = [false, false] := by
  decide

/-- C8, amended.  With the elapsed-time comparison strict: (1) from a running
silence timer, below-threshold frames whose elapsed time is at most the
minimum duration never report silence and leave the detector unchanged;
(2) the first below-threshold frame only starts the timer; (3) a
below-threshold frame whose elapsed time strictly exceeds the minimum
duration reports silence and latches; (4) while latched, below-threshold
frames keep reporting silence; (5) any frame at or above the threshold
immediately reports non-silence, resets the timer and clears the latch. -/
theorem silence_debounce_behaviour :
    (∀ (st : SilenceDetector) (t0 : ℕ) (frames : List (ℚ × ℕ)),
        st.silenceStart = some t0 → t0 ≠ 0 → st.isCurrentlySilent = false →
        (∀ f ∈ frames, f.1 < st.silenceThreshold ∧ f.2 - t0 ≤ st.minSilenceDuration) →
        runSilence st frames = (List.replicate frames.length false, st)) ∧
    (∀ (st : SilenceDetector) (db : ℚ) (now : ℕ),
        st.silenceStart = none → db < st.silenceThreshold →
        st.isSilent db now = (st.isCurrentlySilent, { st with silenceStart := some now })) ∧
    (∀ (st : SilenceDetector) (db : ℚ) (now t0 : ℕ),
        st.silenceStart = some t0 → t0 ≠ 0 → db < st.silenceThreshold →
        now - t0 > st.minSilenceDuration →
        st.isSilent db now = (true, { st with isCurrentlySilent := true })) ∧
    (∀ (st : SilenceDetector) (db : ℚ) (now : ℕ),
        st.isCurrentlySilent = true → db < st.silenceThreshold →
        (st.isSilent db now).1 = true) ∧
    (∀ (st : SilenceDetector) (db : ℚ) (now : ℕ),
        ¬ db < st.silenceThreshold →
        st.isSilent db now =
          (false, { st with silenceStart := none, isCurrentlySilent := false })) := by
  refine ⟨?_, ?_, ?_, ?_, ?_⟩
  · intro st t0 frames h0 ht0 hlatch hf
    induction frames with
    | nil => rfl
    | cons f fs ih =>
      have hstep : st.isSilent f.1 f.2 = (false, st) := by
        have h1 := (hf f (by simp)).1
        have h2 := (hf f (by simp)).2
        rw [SilenceDetector.isSilent, if_pos h1, h0]
        simp only [Option.getD_some]
        rw [if_neg ht0, if_neg (by omega), hlatch]
      have hrest := ih (fun g hg => hf g (by simp [hg]))
      simp only [runSilence, hstep, hrest, List.length_cons]
      rfl
  · intro st db now h0 hdb
    rw [SilenceDetector.isSilent, if_pos hdb, h0]
    simp
  · intro st db now t0 h0 ht0 hdb helapsed
    rw [SilenceDetector.isSilent, if_pos hdb, h0]
    simp only [Option.getD_some]
    rw [if_neg ht0, if_pos helapsed]
  · intro st db now hlatch hdb
    rw [SilenceDetector.isSilent, if_pos hdb]
    by_cases h0 : st.silenceStart.getD 0 = 0
    · rw [if_pos h0, hlatch]
    · rw [if_neg h0]
      by_cases helapsed : now - st.silenceStart.getD 0 > st.minSilenceDuration
      · rw [if_pos helapsed]
      · rw [if_neg helapsed, hlatch]
  · intro st db now hdb
    rw [SilenceDetector.isSilent, if_neg hdb]

/-- C8, witness instantiating every conjunct of the amended theorem at
concrete frames. -/
theorem silence_debounce_witness :
    runSilence ⟨-50, 1000, some 1, false⟩ [(-60, 500)] =
      ([false], ⟨-50, 1000, some 1, false⟩) ∧
    SilenceDetector.isSilent ⟨-50, 1000, none, false⟩ (-60) 7 =
      (false, ⟨-50, 1000, some 7, false⟩) ∧
    SilenceDetector.isSilent ⟨-50, 1000, some 1, false⟩ (-60) 1002 =
      (true, ⟨-50, 1000, some 1, true⟩) ∧
    (SilenceDetector.isSilent ⟨-50, 1000, some 1, true⟩ (-60) 1500).1 = true ∧
    SilenceDetector.isSilent ⟨-50, 1000, some 1, true⟩ (-40) 1600 =
      (false, ⟨-50, 1000, none, false⟩) :=
  ⟨silence_debounce_behaviour.1 ⟨-50, 1000, some 1, false⟩ 1 [(-60, 500)] rfl
      (by omega) rfl (by decide),
    silence_debounce_behaviour.2.1 ⟨-50, 1000, none, false⟩ (-60) 7 rfl (by decide),
    silence_debounce_behaviour.2.2.1 ⟨-50, 1000, some 1, false⟩ (-60) 1002 1 rfl
      (by omega) (by decide) (by decide),
    silence_debounce_behaviour.2.2.2.1 ⟨-50, 1000, some 1, true⟩ (-60) 1500 rfl (by decide),
    silence_debounce_behaviour.2.2.2.2 ⟨-50, 1000, some 1, true⟩ (-40) 1600 (by decide)⟩

/-! ## JavaScript NaN-propagation lemmas -/

theorem jsLt_none_left (b : JsNum) : jsLt none b = false := by cases b <;> rfl

theorem jsDiv_none_left (b : JsNum) : jsDiv none b = none := by cases b <;> rfl

theorem jsDiv_none_right (a : JsNum) : jsDiv a none = none := by cases a <;> rfl

theorem jsMin_none_left (b : JsNum) : jsMin none b = none := by cases b <;> rfl

theorem jsMin_none_right (a : JsNum) : jsMin a none = none := by cases a <;> rfl

theorem jsMax_none_right (a : JsNum) : jsMax a none = none := by cases a <;> rfl

theorem jsSub_none_right (a : JsNum) : jsSub a none = none := by cases a <;> rfl

/-! ## Diarizer step lemmas -/

theorem diarizer_step_quiet (st : SpeakerDiarization) (e : JsNum)
    (h : jsLt e (some st.energyThreshold) = true) :
    st.detectSpeakerChange e = (⟨st.lastSpeakerId, some (mkRat 1 2)⟩, st) := by
  rw [SpeakerDiarization.detectSpeakerChange, if_pos h]

theorem runDiarization_quiet (st : SpeakerDiarization) (e : JsNum)
    (h : jsLt e (some st.energyThreshold) = true) (m : ℕ) :
    runDiarization st (List.replicate m e) = (List.replicate m st.lastSpeakerId, st) := by
  induction m with
  | zero => rfl
  | succ m ih =>
    rw [List.replicate_succ]
    simp only [runDiarization, diarizer_step_quiet st e h, ih, List.replicate_succ]

theorem diarizer_step_steady (q : ℚ) (hq0 : q ≠ 0) (hlt : ¬ q < mkRat 1 50) :
    (steadyState q).detectSpeakerChange (some q) =
      (⟨1, some (mkRat 1 2)⟩, steadyState q) := by
  have h1 : jsLt (some q) (some (mkRat 1 50)) = false := by
    simp [jsLt, hlt]
  have h2 : jsDiv (some q) (some q) = some 1 := by
    simp only [jsDiv, if_neg hq0]
    rw [ratDiv_eq_div, div_self hq0]
  have h3 : jsDiv (some (1 : ℚ)) (some 1) = some 1 := by
    simp only [jsDiv, if_neg (one_ne_zero (α := ℚ))]
    rw [ratDiv_eq_div]
    norm_num
  have h4 : jsMin (some (1 : ℚ)) (some 1) = some 1 := by simp [jsMin]
  have h5 : jsLt (some (1 : ℚ)) (some (mkRat 3 10)) = false := by
    simp only [jsLt, decide_eq_false_iff_not, not_lt]
    rw [mkRat_eq_div]
    norm_num
  have h6 : jsSub (some (1 : ℚ)) (some 1) = some 0 := by
    simp only [jsSub]
    rw [ratSub_eq_sub]
    norm_num
  have h7 : jsMax (some (mkRat 1 2)) (some (0 : ℚ)) = some (mkRat 1 2) := by
    simp only [jsMax, Option.some.injEq]
    rw [mkRat_eq_div]
    norm_num
  have h8 : jsMin (some (1 : ℚ)) (some (mkRat 1 2)) = some (mkRat 1 2) := by
    simp only [jsMin, Option.some.injEq]
    rw [mkRat_eq_div]
    norm_num
  simp only [SpeakerDiarization.detectSpeakerChange, steadyState, initSpeakerDiarization,
    h1, Bool.false_eq_true, if_false, ite_self, h2, h3, h4, h5, h6, h7, h8]

theorem diarizer_step_first (q : ℚ) (hq0 : q ≠ 0) (hlt : ¬ q < mkRat 1 50) :
    initSpeakerDiarization.detectSpeakerChange (some q) =
      (⟨1, some (mkRat 1 2)⟩, steadyState q) := by
  have h0 : jsTruthy (some (0 : ℚ)) = false := by simp [jsTruthy]
  have h1 : jsLt (some q) (some (mkRat 1 50)) = false := by
    simp [jsLt, hlt]
  have h2 : jsDiv (some q) (some q) = some 1 := by
    simp only [jsDiv, if_neg hq0]
    rw [ratDiv_eq_div, div_self hq0]
  have h3 : jsDiv (some (1 : ℚ)) (some 1) = some 1 := by
    simp only [jsDiv, if_neg (one_ne_zero (α := ℚ))]
    rw [ratDiv_eq_div]
    norm_num
  have h4 : jsMin (some (1 : ℚ)) (some 1) = some 1 := by simp [jsMin]
  have h5 : jsLt (some (1 : ℚ)) (some (mkRat 3 10)) = false := by
    simp only [jsLt, decide_eq_false_iff_not, not_lt]
    rw [mkRat_eq_div]
    norm_num
  have h6 : jsSub (some (1 : ℚ)) (some 1) = some 0 := by
    simp only [jsSub]
    rw [ratSub_eq_sub]
    norm_num
  have h7 : jsMax (some (mkRat 1 2)) (some (0 : ℚ)) = some (mkRat 1 2) := by
    simp only [jsMax, Option.some.injEq]
    rw [mkRat_eq_div]
    norm_num
  have h8 : jsMin (some (1 : ℚ)) (some (mkRat 1 2)) = some (mkRat 1 2) := by
    simp only [jsMin, Option.some.injEq]
    rw [mkRat_eq_div]
    norm_num
  simp only [SpeakerDiarization.detectSpeakerChange, steadyState, initSpeakerDiarization,
    h0, h1, Bool.false_eq_true, if_false, h2, h3, h4, h5, h6, h7, h8]

theorem runDiarization_steady (q : ℚ) (hq0 : q ≠ 0) (hlt : ¬ q < mkRat 1 50) (m : ℕ) :
    runDiarization (steadyState q) (List.replicate m (some q)) =
      (List.replicate m 1, steadyState q) := by
  induction m with
  | zero => rfl
  | succ m ih =>
    rw [List.replicate_succ]
    simp only [runDiarization, diarizer_step_steady q hq0 hlt, ih, List.replicate_succ]

/-! ## Claim C9: constant energy never toggles the speaker -/

/-- C9.  For every constant positive frame energy, repeated calls to
`detectSpeakerChange` from a fresh session never toggle the reported speaker
identity: every reported id stays 1 (below the energy floor the silence
branch returns the last speaker; at or above it the energy ratio is 1, whose
normalization is never below the change threshold). -/
theorem constant_energy_never_toggles_speaker (q : ℚ) (hq : 0 < q) (n : ℕ) :
    ((runDiarization initSpeakerDiarization (List.replicate n (some q))).1).all
      (fun r => r == 1) = true := by
  by_cases hlt : q < mkRat 1 50
  · have h : jsLt (some q) (some initSpeakerDiarization.energyThreshold) = true := by
      simp [jsLt, initSpeakerDiarization, hlt]
    rw [runDiarization_quiet _ _ h n]
    simp [List.all_eq_true, List.mem_replicate, initSpeakerDiarization]
  · have hq0 : q ≠ 0 := ne_of_gt hq
    cases n with
    | zero => rfl
    | succ n =>
      rw [List.replicate_succ]
      simp only [runDiarization, diarizer_step_first q hq0 hlt,
        runDiarization_steady q hq0 hlt n]
      simp [List.all_eq_true, List.mem_replicate]

/-- C9, witness at constant energy 1 over three frames. -/
theorem constant_energy_witness :
    (0 : ℚ) < 1 ∧
    ((runDiarization initSpeakerDiarization (List.replicate 3 (some 1))).1).all
      (fun r => r == 1) = true :=
  ⟨by norm_num, constant_energy_never_toggles_speaker 1 (by norm_num) 3⟩

/-! ## Claim C10: the empty frame -/

/-- C10, counterexample.  The claim states the result is well-defined for the
zero-length frame with confidence in [0.5, 1.0]; the unguarded division gives
a NaN energy (`0 / 0`), NaN comparisons route past the silence branch, and
NaN propagates through `Math.min`/`Math.max` into the returned confidence. -/
theorem empty_frame_confidence_is_nan :
    calculateEnergySq [] = none ∧
    (initSpeakerDiarization.detectSpeakerChange none).1.confidence = none ∧
    (initSpeakerDiarization.detectSpeakerChange none).1.speakerId = 1 := by
  decide

/-- C10, amended.  For the empty frame the energy radicand is NaN (`0 / 0`),
and on a NaN energy the diarizer still returns the last speaker id (in
{1, 2} whenever the state's last id is), but the returned confidence is NaN —
not a value in [0.5, 1.0] — and NaN is written into `prevEnergy`. -/
theorem empty_frame_speaker_defined_confidence_nan (st : SpeakerDiarization)
    (h : st.lastSpeakerId = 1 ∨ st.lastSpeakerId = 2) :
    ((st.detectSpeakerChange none).1.speakerId = 1 ∨
      (st.detectSpeakerChange none).1.speakerId = 2) ∧
    (st.detectSpeakerChange none).1.confidence = none ∧
    (st.detectSpeakerChange none).2.prevEnergy = none ∧
    calculateEnergySq [] = none := by
  have hstep : st.detectSpeakerChange none =
      (⟨st.lastSpeakerId, none⟩, { st with stabilityCounter := 0, prevEnergy := none }) := by
    rw [SpeakerDiarization.detectSpeakerChange]
    rw [if_neg (by simp [jsLt_none_left])]
    simp only [jsDiv_none_left, jsDiv_none_right, jsMin_none_left, jsSub_none_right,
      jsMax_none_right, jsMin_none_right, jsLt_none_left, Bool.false_eq_true, if_false]
  rw [hstep]
  exact ⟨h, rfl, rfl, rfl⟩

/-- C10, witness at the fresh diarizer state. -/
theorem empty_frame_witness :
    (initSpeakerDiarization.lastSpeakerId = 1 ∨ initSpeakerDiarization.lastSpeakerId = 2) ∧
    (initSpeakerDiarization.detectSpeakerChange none).1.confidence = none :=
  ⟨Or.inl rfl,
    (empty_frame_speaker_defined_confidence_nan initSpeakerDiarization (Or.inl rfl)).2.1⟩

end SpeakTranscribe
